import Mathlib

/-!
# Reference-tracker object manager (coreclr interop)

A shallow embedding of `src/coreclr/src/interop/trackerobjectmanager.cpp`.

* Pointers are natural numbers, `nullptr` is `0`.
* `HRESULT` is a signed 32-bit status, embedded as an `Int`; `FAILED hr` is `hr < 0`.
* The process-wide statics (`s_TrackerManager`, `s_HasTrackingStarted`) and the global
  pegging flag owned by the runtime live in an explicit `State`, together with the trace of
  every call that leaves this translation unit (COM calls and `InteropLibImports` calls).
* The outcome of every external call is an input of the operation that makes it.
* `_ASSERTE` is a diagnostic-build check and compiles to nothing in a release build; it is
  not part of the embedded behaviour.
-/

namespace TrackerObjectManager

/-! ## Basic types -/

/-- Raw pointer value (an address); `nullptr` is the address zero. -/
abbrev Ptr := Nat

/-- The null pointer. -/
abbrev nullptr : Ptr := 0

/-- Handle to a managed object (`InteropLib::OBJECTHANDLE`, a `void*`). -/
abbrev OBJECTHANDLE := Ptr

/-- COM status code: a signed 32-bit integer. -/
abbrev HRESULT := Int

/-- Success. -/
def S_OK : HRESULT := 0

/-- Success with a negative answer ("not applicable"). -/
def S_FALSE : HRESULT := 1

/-- Status `0x80004003` read as a signed 32-bit value. -/
def E_POINTER : HRESULT := 0x80004003 - 0x100000000

/-- Status `0x80004002` read as a signed 32-bit value. -/
def E_NOINTERFACE : HRESULT := 0x80004002 - 0x100000000

/-- The `FAILED(hr)` test of the COM headers: the sign bit is set. -/
def FAILED (hr : HRESULT) : Bool := decide (hr < 0)

/-- The `SUCCEEDED(hr)` test of the COM headers. -/
def SUCCEEDED (hr : HRESULT) : Bool := decide (0 ≤ hr)

/-- Every call that leaves the translation unit, in the order it is made. -/
inductive Event where
  /-- Call `obj->GetReferenceTrackerManager(&trackerManager)`. -/
  | GetReferenceTrackerManager (obj : Ptr)
  /-- Call `mgr->SetReferenceTrackerHost(hostServices)`. -/
  | SetReferenceTrackerHost (mgr : Ptr)
  /-- Call `p->Release()`. -/
  | Release (p : Ptr)
  /-- Call `obj->ConnectFromTrackerSource()`. -/
  | ConnectFromTrackerSource (obj : Ptr)
  /-- Call `obj->AddRefFromTrackerSource()`. -/
  | AddRefFromTrackerSource (obj : Ptr)
  /-- Call `obj->DisconnectFromTrackerSource()`. -/
  | DisconnectFromTrackerSource (obj : Ptr)
  /-- Call `InteropLibImports::SetGlobalPeggingState(b)`. -/
  | SetGlobalPeggingState (b : Bool)
  /-- Call `mgr->ReferenceTrackingStarted()`. -/
  | ReferenceTrackingStarted (mgr : Ptr)
  /-- Call `mgr->ReferenceTrackingCompleted()`. -/
  | ReferenceTrackingCompleted (mgr : Ptr)
  /-- Call `InteropLibImports::IteratorNext(cxt, &extObjContext)`. -/
  | IteratorNext
  /-- Call `tracker->FindTrackerTargets(&cb)`. -/
  | FindTrackerTargets (tracker : Ptr)
  /-- Call `InteropLibImports::FoundReferencePath(cxt, source, target)`. -/
  | FoundReferencePath (source target : OBJECTHANDLE)
  /-- Call `mgr->FindTrackerTargetsCompleted(walkFailed)`. -/
  | FindTrackerTargetsCompleted (mgr : Ptr) (walkFailed : Bool)
  deriving DecidableEq, Repr

/-- The mutable state the file works on: its two statics, the global pegging flag kept by
the runtime behind `Get/SetGlobalPeggingState`, and the trace of external calls. -/
structure State where
  /-- Static `VolatilePtr<IReferenceTrackerManager> s_TrackerManager`. -/
  s_TrackerManager : Ptr
  /-- Static `Volatile<BOOL> s_HasTrackingStarted`. -/
  s_HasTrackingStarted : Bool
  /-- The flag read by `GetGlobalPeggingState` and written by `SetGlobalPeggingState`. -/
  GlobalPeggingState : Bool
  /-- External calls made so far, oldest first. -/
  trace : List Event
  deriving DecidableEq, Repr

/-- State at process start: statics zero-initialised, pegging on, nothing called yet. -/
def State.init : State :=
  { s_TrackerManager := nullptr, s_HasTrackingStarted := false,
    GlobalPeggingState := true, trace := [] }

/-- Record one external call. -/
def State.emit (s : State) (e : Event) : State :=
  { s with trace := s.trace ++ [e] }

/-- Runtime import `InteropLibImports::SetGlobalPeggingState`. -/
def SetGlobalPeggingState (b : Bool) (s : State) : State :=
  { (s.emit (.SetGlobalPeggingState b)) with GlobalPeggingState := b }

/-- Runtime import `InteropLibImports::GetGlobalPeggingState`. -/
def GetGlobalPeggingState (s : State) : Bool := s.GlobalPeggingState

/-- The Win32 primitive `InterlockedCompareExchangePointer(&s_TrackerManager, exchange,
comparand)`: stores `exchange` when the current value equals `comparand`; returns the value
read. -/
def InterlockedCompareExchangePointer (exchange comparand : Ptr) (s : State) : Ptr × State :=
  (s.s_TrackerManager,
   if s.s_TrackerManager = comparand then { s with s_TrackerManager := exchange } else s)

/-! ## External collaborators -/

/-- A `ManagedObjectWrapper`; only its `Target` handle is read here. -/
structure ManagedObjectWrapper where
  /-- The managed object the wrapper stands for. -/
  Target : OBJECTHANDLE
  deriving DecidableEq, Repr

/-- Behaviour of the functions the callback calls that are defined outside this file. -/
structure Env where
  /-- Function `ManagedObjectWrapper::MapFromIUnknown`: the wrapper behind an interface
  pointer, or null (`none`) when the pointer is not a wrapper this runtime created. -/
  MapFromIUnknown : Ptr → Option ManagedObjectWrapper
  /-- Status returned by `InteropLibImports::FoundReferencePath(cxt, source, target)`. -/
  FoundReferencePath : OBJECTHANDLE → OBJECTHANDLE → HRESULT

/-- What an external tracker does inside `FindTrackerTargets(cb)`: it either returns a
status, or calls `cb->FoundTrackerTarget(target)` and goes on according to the status the
callback gave back. -/
inductive FindTargetsScript where
  | ret (hr : HRESULT)
  | found (target : Ptr) (next : HRESULT → FindTargetsScript)

/-- A `NativeObjectWrapperContext` as far as the walk reads it. -/
structure NativeObjectWrapperContext where
  /-- Getter `GetRuntimeContext()`: the managed handle the context originates from. -/
  RuntimeContext : OBJECTHANDLE
  /-- Getter `GetReferenceTracker()`: the tracker interface, or `nullptr`. -/
  ReferenceTracker : Ptr
  /-- Behaviour of `ReferenceTracker->FindTrackerTargets`. -/
  findTargets : FindTargetsScript

/-- The `RuntimeCallContext` of one collection pass as `IteratorNext` exposes it: it yields
`S_OK` with each of `items` in turn, then the status `endHr`, which is not `S_OK`. -/
structure RuntimeCallContext where
  items : List NativeObjectWrapperContext
  endHr : HRESULT
  endHr_ne : endHr ≠ S_OK

/-- Modelled from the spec: the `RETURN_IF_FAILED(expr)` macro, defined in `comwrappers.h` and
not in this file. It stores the status of `expr` in the local `hr` and returns it from
the enclosing function when it is a failure ("any failure ... short-circuits and returns the
failure"); otherwise execution continues with `k`. -/
def RETURN_IF_FAILED (r : HRESULT × State) (k : State → HRESULT × State) : HRESULT × State :=
  if FAILED r.1 then (r.1, r.2) else k r.2

/-- Modelled from the spec: the destructor of `ComHolder<T>`, defined in `comwrappers.h`
and not in this file: "scope-bound acquisition with guaranteed release on every exit path"; a
holder that is empty (never filled, or detached) releases nothing. -/
def ComHolder_dtor (p : Ptr) (s : State) : State :=
  if p = nullptr then s else s.emit (.Release p)

/-- Interface identifiers the file compares against. -/
inductive IID where
  | IReferenceTrackerHost
  | IReferenceTrackerTarget
  | IReferenceTracker
  | IReferenceTrackerManager
  | IFindReferenceTargetsCallback
  | IUnknown
  deriving DecidableEq, Repr

/-- Method `HostServices::QueryInterface(riid, ppvObject)`; `AddRef` on the global instance
only returns 1. The result is the status; on `S_OK` the out-parameter is the instance. -/
def HostServices_QueryInterface (riid : IID) (ppvObject : Ptr) : HRESULT :=
  if ppvObject = nullptr then E_POINTER
  else if riid = IID.IReferenceTrackerHost then S_OK
  else if riid = IID.IUnknown then S_OK
  else E_NOINTERFACE

/-- Address of a local variable passed as an out-parameter: not null. -/
def addressOfLocal : Ptr := 1

/-- An external `IReferenceTracker` object: its address and the outcome of each of its
methods this file calls (except `FindTrackerTargets`, which belongs to the walk). -/
structure IReferenceTracker where
  /-- Address of the object. -/
  self : Ptr
  /-- Status of `GetReferenceTrackerManager` and the pointer it stores in its argument. -/
  GetReferenceTrackerManager : HRESULT × Ptr
  /-- Status of `ConnectFromTrackerSource`. -/
  ConnectFromTrackerSource : HRESULT
  /-- Status of `AddRefFromTrackerSource`. -/
  AddRefFromTrackerSource : HRESULT
  /-- Status of `DisconnectFromTrackerSource`. -/
  DisconnectFromTrackerSource : HRESULT
  deriving DecidableEq, Repr

/-- Statuses the external `IReferenceTrackerManager` returns during one operation. -/
structure ManagerOutcomes where
  SetReferenceTrackerHost : HRESULT
  ReferenceTrackingStarted : HRESULT
  FindTrackerTargetsCompleted : HRESULT
  ReferenceTrackingCompleted : HRESULT
  deriving DecidableEq, Repr

/-! ## The code -/

/-- Function `ShouldWalkExternalObjects` (lines 169-172). -/
def ShouldWalkExternalObjects (s : State) : Bool :=
  decide (s.s_TrackerManager ≠ nullptr)

/-- Method `FindDependentWrappersCallback::FoundTrackerTarget` (lines 188-208) of the
callback built for the context `nowCxt`. -/
def FoundTrackerTarget (env : Env) (nowCxt : NativeObjectWrapperContext) (target : Ptr)
    (s : State) : HRESULT × State :=
  if target ≠ nullptr then (E_POINTER, s)
  else
    match env.MapFromIUnknown target with
    | none => (S_OK, s)          -- not a target we implemented
    | some mow =>
      RETURN_IF_FAILED
        (env.FoundReferencePath nowCxt.RuntimeContext mow.Target,
         s.emit (.FoundReferencePath nowCxt.RuntimeContext mow.Target))
        (fun s1 => (S_OK, s1))

/-- The external call `trackerMaybe->FindTrackerTargets(&cb)`: the tracker follows its
script, every `found` step being a call of `cb.FoundTrackerTarget`. -/
def FindTrackerTargets (env : Env) (nowc : NativeObjectWrapperContext) :
    FindTargetsScript → State → HRESULT × State
  | .ret hr, s => (hr, s)
  | .found target next, s =>
    FindTrackerTargets env nowc (next (FoundTrackerTarget env nowc target s).1)
      (FoundTrackerTarget env nowc target s).2

/-- The `while` loop of `WalkExternalTrackerObjects` (lines 248-264), over what
`IteratorNext` still has to yield; the result is the value of `hr` when the loop is left. -/
def walkLoop (env : Env) : List NativeObjectWrapperContext → HRESULT → State → HRESULT × State
  | [], endHr, s => (endHr, s.emit .IteratorNext)
  | nowc :: rest, endHr, s =>
    if nowc.ReferenceTracker = nullptr then
      walkLoop env rest endHr (s.emit .IteratorNext)          -- continue
    else
      let r := FindTrackerTargets env nowc nowc.findTargets
        ((s.emit .IteratorNext).emit (.FindTrackerTargets nowc.ReferenceTracker))
      if FAILED r.1 then r                                     -- break
      else walkLoop env rest endHr r.2

/-- Function `WalkExternalTrackerObjects` (lines 240-277). The status of
`FindTrackerTargetsCompleted` is discarded by the code. -/
def WalkExternalTrackerObjects (env : Env) (cxt : RuntimeCallContext) (s : State) :
    HRESULT × State :=
  let r := walkLoop env cxt.items cxt.endHr s
  let walkFailed := FAILED r.1
  let s1 := if FAILED r.1 then SetGlobalPeggingState true r.2 else r.2
  (r.1, s1.emit (.FindTrackerTargetsCompleted s1.s_TrackerManager walkFailed))

/-- Function `TrackerObjectManager::OnIReferenceTrackerFound` (lines 288-310). The local
holder `trackerManager` is destroyed on every return; `hostServices` holds the global
instance, whose `Release` does nothing. -/
def OnIReferenceTrackerFound (m : ManagerOutcomes) (obj : IReferenceTracker) (s : State) :
    HRESULT × State :=
  if s.s_TrackerManager ≠ nullptr then (S_OK, s)
  else
    let trackerManager := obj.GetReferenceTrackerManager.2
    let s1 := s.emit (.GetReferenceTrackerManager obj.self)
    if FAILED obj.GetReferenceTrackerManager.1 then
      (obj.GetReferenceTrackerManager.1, ComHolder_dtor trackerManager s1)
    else if FAILED (HostServices_QueryInterface IID.IReferenceTrackerHost addressOfLocal) then
      (HostServices_QueryInterface IID.IReferenceTrackerHost addressOfLocal,
       ComHolder_dtor trackerManager s1)
    else
      let cas := InterlockedCompareExchangePointer trackerManager nullptr s1
      if cas.1 = nullptr then
        -- Detach: ownership has been transferred, the holder is empty from here on
        RETURN_IF_FAILED
          (m.SetReferenceTrackerHost,
           cas.2.emit (.SetReferenceTrackerHost cas.2.s_TrackerManager))
          (fun s2 => (S_OK, s2))
      else
        (S_OK, ComHolder_dtor trackerManager cas.2)

/-- Function `TrackerObjectManager::AfterWrapperCreated` (lines 312-328). -/
def AfterWrapperCreated (obj : IReferenceTracker) (s : State) : HRESULT × State :=
  RETURN_IF_FAILED (obj.ConnectFromTrackerSource, s.emit (.ConnectFromTrackerSource obj.self))
    (fun s1 =>
      RETURN_IF_FAILED
        (obj.AddRefFromTrackerSource, s1.emit (.AddRefFromTrackerSource obj.self))
        (fun s2 => (S_OK, s2)))

/-- Function `TrackerObjectManager::BeforeWrapperDestroyed` (lines 330-343). -/
def BeforeWrapperDestroyed (obj : IReferenceTracker) (s : State) : HRESULT × State :=
  RETURN_IF_FAILED
    (obj.DisconnectFromTrackerSource, s.emit (.DisconnectFromTrackerSource obj.self))
    (fun s1 => (S_OK, s1))

/-- Function `TrackerObjectManager::BeginReferenceTracking` (lines 345-374). -/
def BeginReferenceTracking (env : Env) (m : ManagerOutcomes) (cxt : RuntimeCallContext)
    (s : State) : HRESULT × State :=
  if !ShouldWalkExternalObjects s then (S_FALSE, s)
  else
    let s1 := { s with s_HasTrackingStarted := true }
    let s2 := SetGlobalPeggingState false s1
    RETURN_IF_FAILED
      (m.ReferenceTrackingStarted, s2.emit (.ReferenceTrackingStarted s2.s_TrackerManager))
      (fun s3 =>
        RETURN_IF_FAILED (WalkExternalTrackerObjects env cxt s3) (fun s4 => (S_OK, s4)))

/-- Function `TrackerObjectManager::EndReferenceTracking` (lines 376-397). -/
def EndReferenceTracking (m : ManagerOutcomes) (s : State) : HRESULT × State :=
  if s.s_HasTrackingStarted ≠ true || !ShouldWalkExternalObjects s then (S_FALSE, s)
  else
    let s1 := s.emit (.ReferenceTrackingCompleted s.s_TrackerManager)
    let s2 := SetGlobalPeggingState true s1
    (m.ReferenceTrackingCompleted, { s2 with s_HasTrackingStarted := false })

/-- Function `TrackerObjectManager::OnShutdown` (lines 399-407). -/
def OnShutdown (s : State) : State :=
  let trackerManager := s.s_TrackerManager
  let cas := InterlockedCompareExchangePointer nullptr trackerManager s
  if cas.1 = trackerManager then cas.2.emit (.Release trackerManager) else cas.2

/-! ## Sequences of public operations -/

/-- One call of a public operation, with the outcomes of the external calls it makes. -/
inductive Op where
  | OnIReferenceTrackerFound (m : ManagerOutcomes) (obj : IReferenceTracker)
  | BeginReferenceTracking (m : ManagerOutcomes) (cxt : RuntimeCallContext)
  | EndReferenceTracking (m : ManagerOutcomes)
  | OnShutdown

/-- State after one operation. -/
def step (env : Env) (op : Op) (s : State) : State :=
  match op with
  | .OnIReferenceTrackerFound m obj => (OnIReferenceTrackerFound m obj s).2
  | .BeginReferenceTracking m cxt => (BeginReferenceTracking env m cxt s).2
  | .EndReferenceTracking m => (EndReferenceTracking m s).2
  | .OnShutdown => OnShutdown s

/-- State after a sequence of operations, first to last. -/
def run (env : Env) (ops : List Op) (s : State) : State :=
  ops.foldl (fun t op => step env op t) s

/-! ## Reading a trace -/

/-- The state with further external calls recorded. -/
def State.append (s : State) (evs : List Event) : State :=
  { s with trace := s.trace ++ evs }

/-- Trackers on which `FindTrackerTargets` was called, in call order. -/
def findCalls (evs : List Event) : List Ptr :=
  evs.filterMap (fun e => match e with
    | .FindTrackerTargets t => some t
    | _ => none)

/-- Number of `IteratorNext` calls. -/
def iteratorCalls (evs : List Event) : Nat :=
  evs.count .IteratorNext

/-- Arguments of the `SetGlobalPeggingState` calls, in call order. -/
def peggingWrites (evs : List Event) : List Bool :=
  evs.filterMap (fun e => match e with
    | .SetGlobalPeggingState b => some b
    | _ => none)

/-- The `FindTrackerTargetsCompleted` calls (manager, `walkFailed`), in call order. -/
def completedCalls (evs : List Event) : List (Ptr × Bool) :=
  evs.filterMap (fun e => match e with
    | .FindTrackerTargetsCompleted mgr b => some (mgr, b)
    | _ => none)

/-- Managers on which `SetReferenceTrackerHost` was called, in call order. -/
def setHostCalls (evs : List Event) : List Ptr :=
  evs.filterMap (fun e => match e with
    | .SetReferenceTrackerHost mgr => some mgr
    | _ => none)

/-- Edges reported through `FoundReferencePath` (source, target), in call order. -/
def reportedEdges (evs : List Event) : List (OBJECTHANDLE × OBJECTHANDLE) :=
  evs.filterMap (fun e => match e with
    | .FoundReferencePath a b => some (a, b)
    | _ => none)

/-- Calls only the enumeration makes: `IteratorNext`, `FindTrackerTargets` and
`FoundReferencePath`. -/
def Event.isWalkCall : Event → Bool
  | .IteratorNext => true
  | .FindTrackerTargets _ => true
  | .FoundReferencePath _ _ => true
  | _ => false

/-- Status `FindTrackerTargets` returns on the context `c` (it does not depend on the
state it starts from, see `FindTrackerTargets_eq`). -/
def findStatus (env : Env) (c : NativeObjectWrapperContext) : HRESULT :=
  (FindTrackerTargets env c c.findTargets State.init).1

/-- External calls made inside `FindTrackerTargets` on the context `c`. -/
def findEvents (env : Env) (c : NativeObjectWrapperContext) : List Event :=
  (FindTrackerTargets env c c.findTargets State.init).2.trace

/-- Value of `hr` when the enumeration loop is left. -/
def walkStatus (env : Env) (items : List NativeObjectWrapperContext) (endHr : HRESULT) :
    HRESULT :=
  (walkLoop env items endHr State.init).1

/-- External calls made by the enumeration loop. -/
def walkEvents (env : Env) (items : List NativeObjectWrapperContext) (endHr : HRESULT) :
    List Event :=
  (walkLoop env items endHr State.init).2.trace

/-- Trackers of the contexts that expose one, in enumeration order. -/
def trackersOf (items : List NativeObjectWrapperContext) : List Ptr :=
  (items.filter (fun c => decide (c.ReferenceTracker ≠ nullptr))).map (fun c => c.ReferenceTracker)

/-- An environment in which the pointer 40 is a wrapper this runtime created, standing for
the managed handle 400, and every edge report succeeds. -/
def sampleEnv : Env :=
  { MapFromIUnknown := fun p => if p = 40 then some { Target := 400 } else none,
    FoundReferencePath := fun _ _ => S_OK }

/-- A manager all of whose notifications succeed. -/
def okManager : ManagerOutcomes :=
  { SetReferenceTrackerHost := S_OK, ReferenceTrackingStarted := S_OK,
    FindTrackerTargetsCompleted := S_OK, ReferenceTrackingCompleted := S_OK }

/-- A tracker object at address 7 whose manager lives at address 9; all its calls
succeed. -/
def sampleTracker : IReferenceTracker :=
  { self := 7, GetReferenceTrackerManager := (S_OK, 9), ConnectFromTrackerSource := S_OK,
    AddRefFromTrackerSource := S_OK, DisconnectFromTrackerSource := S_OK }

/-- A tracker object at address 8 whose `ConnectFromTrackerSource` fails. -/
def refusingTracker : IReferenceTracker :=
  { self := 8, GetReferenceTrackerManager := (S_OK, 9), ConnectFromTrackerSource := E_POINTER,
    AddRefFromTrackerSource := S_OK, DisconnectFromTrackerSource := S_OK }

/-- A context without tracking capability. -/
def plainContext (handle : OBJECTHANDLE) : NativeObjectWrapperContext :=
  { RuntimeContext := handle, ReferenceTracker := nullptr, findTargets := .ret S_OK }

/-- A context with tracker 22 that reports the target 40 and returns what the callback
returned. -/
def reportingContext : NativeObjectWrapperContext :=
  { RuntimeContext := 12, ReferenceTracker := 22,
    findTargets := .found 40 (fun hr => .ret hr) }

/-- A context with tracker 22 that reports nothing and succeeds. -/
def quietContext : NativeObjectWrapperContext :=
  { RuntimeContext := 12, ReferenceTracker := 22, findTargets := .ret S_OK }

/-- A context with tracker 23 whose `FindTrackerTargets` fails with `E_POINTER` at once. -/
def failingContext : NativeObjectWrapperContext :=
  { RuntimeContext := 13, ReferenceTracker := 23, findTargets := .ret E_POINTER }

/-- Three contexts, only the second with tracking capability; the enumeration ends with
`S_FALSE`. -/
def quietPass : RuntimeCallContext :=
  { items := [plainContext 11, quietContext, plainContext 14], endHr := S_FALSE,
    endHr_ne := by decide }

/-- Three contexts, only the second with tracking capability, reporting one target. -/
def reportingPass : RuntimeCallContext :=
  { items := [plainContext 11, reportingContext, plainContext 14], endHr := S_FALSE,
    endHr_ne := by decide }

/-- Three contexts the second of which fails. -/
def failingPass : RuntimeCallContext :=
  { items := [quietContext, failingContext, quietContext], endHr := S_FALSE,
    endHr_ne := by decide }

/-- One context, after which `IteratorNext` fails with `E_POINTER`. -/
def brokenPass : RuntimeCallContext :=
  { items := [quietContext], endHr := E_POINTER, endHr_ne := by decide }

/-- A state at rest with the manager 9 published. -/
def publishedState : State :=
  { s_TrackerManager := 9, s_HasTrackingStarted := false, GlobalPeggingState := true,
    trace := [] }

/-! ## Supporting lemmas -/

@[simp]
theorem State.append_nil (s : State) : s.append [] = s := by
  simp [State.append]

@[simp]
theorem State.append_append (s : State) (a b : List Event) :
    (s.append a).append b = s.append (a ++ b) := by
  simp [State.append]

theorem State.emit_eq_append (s : State) (e : Event) : s.emit e = s.append [e] := rfl

@[simp]
theorem State.init_append_trace (evs : List Event) :
    (State.init.append evs).trace = evs := by
  simp [State.append, State.init]

@[simp]
theorem State.init_trace : State.init.trace = [] := rfl

@[simp]
theorem State.append_trace (s : State) (evs : List Event) :
    (s.append evs).trace = s.trace ++ evs := rfl

@[simp]
theorem State.append_mgr (s : State) (evs : List Event) :
    (s.append evs).s_TrackerManager = s.s_TrackerManager := rfl

@[simp]
theorem State.append_started (s : State) (evs : List Event) :
    (s.append evs).s_HasTrackingStarted = s.s_HasTrackingStarted := rfl

@[simp]
theorem State.append_pegging (s : State) (evs : List Event) :
    (s.append evs).GlobalPeggingState = s.GlobalPeggingState := rfl

/-- The callback only appends to the trace, and what it appends and returns does not
depend on the state. -/
theorem FoundTrackerTarget_eq (env : Env) (c : NativeObjectWrapperContext) (t : Ptr)
    (s : State) :
    FoundTrackerTarget env c t s =
      ((FoundTrackerTarget env c t State.init).1,
       s.append (FoundTrackerTarget env c t State.init).2.trace) := by
  unfold FoundTrackerTarget
  by_cases ht : t ≠ nullptr
  · simp [ht, State.init]
  · simp only [ht, if_false]
    cases env.MapFromIUnknown t with
    | none => simp [State.init]
    | some mow =>
      simp only [RETURN_IF_FAILED]
      split <;> simp [State.emit, State.append, State.init]

/-- The same for a whole `FindTrackerTargets` call. -/
theorem FindTrackerTargets_eq (env : Env) (c : NativeObjectWrapperContext)
    (script : FindTargetsScript) (s : State) :
    FindTrackerTargets env c script s =
      ((FindTrackerTargets env c script State.init).1,
       s.append (FindTrackerTargets env c script State.init).2.trace) := by
  induction script generalizing s with
  | ret hr => simp [FindTrackerTargets, State.init]
  | found target next ih =>
    simp only [FindTrackerTargets]
    rw [FoundTrackerTarget_eq env c target s]
    rw [ih _ (s.append _), ih _ (FoundTrackerTarget env c target State.init).2]
    simp [State.append]

/-- The enumeration loop only appends to the trace, and what it appends and returns does
not depend on the state. -/
theorem walkLoop_eq (env : Env) (items : List NativeObjectWrapperContext) (endHr : HRESULT)
    (s : State) :
    walkLoop env items endHr s =
      (walkStatus env items endHr, s.append (walkEvents env items endHr)) := by
  unfold walkStatus walkEvents
  induction items generalizing s with
  | nil => simp [walkLoop, State.emit, State.append, State.init]
  | cons c rest ih =>
    simp only [walkLoop]
    by_cases hc : c.ReferenceTracker = nullptr
    · simp only [hc, if_true]
      rw [ih (s.emit _), ih (State.init.emit _)]
      simp [State.emit, State.append]
    · simp only [hc, if_false]
      rw [FindTrackerTargets_eq env c c.findTargets ((s.emit _).emit _),
        FindTrackerTargets_eq env c c.findTargets ((State.init.emit _).emit _)]
      by_cases hf : FAILED (FindTrackerTargets env c c.findTargets State.init).1 = true
      · simp only [hf, if_true]
        simp [State.emit, State.append]
      · simp only [hf, if_false]
        rw [ih (State.append _ _), ih (State.append _ _)]
        simp [State.emit, State.append]

theorem walkStatus_nil (env : Env) (endHr : HRESULT) : walkStatus env [] endHr = endHr := rfl

theorem walkEvents_nil (env : Env) (endHr : HRESULT) :
    walkEvents env [] endHr = [Event.IteratorNext] := rfl

/-- One turn of the loop on a context without tracker. -/
theorem walk_cons_skip (env : Env) (c : NativeObjectWrapperContext)
    (rest : List NativeObjectWrapperContext) (endHr : HRESULT)
    (hc : c.ReferenceTracker = nullptr) :
    walkStatus env (c :: rest) endHr = walkStatus env rest endHr ∧
    walkEvents env (c :: rest) endHr = Event.IteratorNext :: walkEvents env rest endHr := by
  have h : walkLoop env (c :: rest) endHr State.init =
      walkLoop env rest endHr (State.init.emit .IteratorNext) := by
    simp [walkLoop, hc]
  unfold walkStatus walkEvents
  rw [h, walkLoop_eq]
  simp [walkStatus, walkEvents, State.emit, State.append]

/-- One turn of the loop on a context whose `FindTrackerTargets` fails: the loop is left. -/
theorem walk_cons_fail (env : Env) (c : NativeObjectWrapperContext)
    (rest : List NativeObjectWrapperContext) (endHr : HRESULT)
    (hc : c.ReferenceTracker ≠ nullptr) (hf : FAILED (findStatus env c) = true) :
    walkStatus env (c :: rest) endHr = findStatus env c ∧
    walkEvents env (c :: rest) endHr =
      Event.IteratorNext :: Event.FindTrackerTargets c.ReferenceTracker :: findEvents env c := by
  have h : walkLoop env (c :: rest) endHr State.init =
      FindTrackerTargets env c c.findTargets
        ((State.init.emit .IteratorNext).emit (.FindTrackerTargets c.ReferenceTracker)) := by
    simp only [walkLoop, hc, if_false]
    rw [FindTrackerTargets_eq]
    unfold findStatus at hf
    simp [hf]
  unfold walkStatus walkEvents
  rw [h, FindTrackerTargets_eq]
  simp [findStatus, findEvents, State.emit, State.append]

/-- One turn of the loop on a context whose `FindTrackerTargets` does not fail. -/
theorem walk_cons_ok (env : Env) (c : NativeObjectWrapperContext)
    (rest : List NativeObjectWrapperContext) (endHr : HRESULT)
    (hc : c.ReferenceTracker ≠ nullptr) (hf : FAILED (findStatus env c) = false) :
    walkStatus env (c :: rest) endHr = walkStatus env rest endHr ∧
    walkEvents env (c :: rest) endHr =
      Event.IteratorNext :: Event.FindTrackerTargets c.ReferenceTracker ::
        (findEvents env c ++ walkEvents env rest endHr) := by
  have h : walkLoop env (c :: rest) endHr State.init =
      walkLoop env rest endHr
        (((State.init.emit .IteratorNext).emit
          (.FindTrackerTargets c.ReferenceTracker)).append (findEvents env c)) := by
    simp only [walkLoop, hc, if_false]
    rw [FindTrackerTargets_eq]
    unfold findStatus at hf
    simp [hf, findEvents]
  unfold walkStatus walkEvents
  rw [h, walkLoop_eq]
  simp [walkStatus, walkEvents, State.emit, State.append]

/-- What `BeginReferenceTracking` does when a tracker manager is published, by cases on the
start notification and on the status the enumeration loop ends with. -/
theorem BeginReferenceTracking_eq (env : Env) (m : ManagerOutcomes) (cxt : RuntimeCallContext)
    (s : State) (hmgr : s.s_TrackerManager ≠ nullptr) :
    BeginReferenceTracking env m cxt s =
      if FAILED m.ReferenceTrackingStarted then
        (m.ReferenceTrackingStarted,
         { s with
           s_HasTrackingStarted := true, GlobalPeggingState := false,
           trace := s.trace ++ [Event.SetGlobalPeggingState false,
             Event.ReferenceTrackingStarted s.s_TrackerManager] })
      else if FAILED (walkStatus env cxt.items cxt.endHr) then
        (walkStatus env cxt.items cxt.endHr,
         { s with
           s_HasTrackingStarted := true, GlobalPeggingState := true,
           trace := s.trace ++ [Event.SetGlobalPeggingState false,
             Event.ReferenceTrackingStarted s.s_TrackerManager] ++
             walkEvents env cxt.items cxt.endHr ++
             [Event.SetGlobalPeggingState true,
              Event.FindTrackerTargetsCompleted s.s_TrackerManager true] })
      else
        (S_OK,
         { s with
           s_HasTrackingStarted := true, GlobalPeggingState := false,
           trace := s.trace ++ [Event.SetGlobalPeggingState false,
             Event.ReferenceTrackingStarted s.s_TrackerManager] ++
             walkEvents env cxt.items cxt.endHr ++
             [Event.FindTrackerTargetsCompleted s.s_TrackerManager false] }) := by
  unfold BeginReferenceTracking
  have hw : ShouldWalkExternalObjects s = true := by simp [ShouldWalkExternalObjects, hmgr]
  simp only [hw, Bool.not_true, Bool.false_eq_true, if_false, RETURN_IF_FAILED]
  by_cases h1 : FAILED m.ReferenceTrackingStarted = true
  · simp [h1, SetGlobalPeggingState, State.emit]
  · simp only [h1, if_false, WalkExternalTrackerObjects, walkLoop_eq]
    by_cases h2 : FAILED (walkStatus env cxt.items cxt.endHr) = true
    · simp [h2, SetGlobalPeggingState, State.emit, State.append]
    · simp [h2, SetGlobalPeggingState, State.emit, State.append]

/-- Without a published tracker manager `BeginReferenceTracking` does nothing. -/
theorem BeginReferenceTracking_null (env : Env) (m : ManagerOutcomes)
    (cxt : RuntimeCallContext) (s : State) (hmgr : s.s_TrackerManager = nullptr) :
    BeginReferenceTracking env m cxt s = (S_FALSE, s) := by
  simp [BeginReferenceTracking, ShouldWalkExternalObjects, hmgr]

/-- Frame of `BeginReferenceTracking`: the manager pointer is never written. -/
theorem BeginReferenceTracking_mgr (env : Env) (m : ManagerOutcomes) (cxt : RuntimeCallContext)
    (s : State) :
    (BeginReferenceTracking env m cxt s).2.s_TrackerManager = s.s_TrackerManager := by
  by_cases hmgr : s.s_TrackerManager = nullptr
  · rw [BeginReferenceTracking_null env m cxt s hmgr]
  · rw [BeginReferenceTracking_eq env m cxt s hmgr]
    split
    · rfl
    · split <;> rfl

/-- With a published tracker manager `BeginReferenceTracking` always sets the active-walk
flag. -/
theorem BeginReferenceTracking_started (env : Env) (m : ManagerOutcomes)
    (cxt : RuntimeCallContext) (s : State) (hmgr : s.s_TrackerManager ≠ nullptr) :
    (BeginReferenceTracking env m cxt s).2.s_HasTrackingStarted = true := by
  rw [BeginReferenceTracking_eq env m cxt s hmgr]
  split
  · rfl
  · split <;> rfl

/-- What `EndReferenceTracking` does when a walk is active and a manager is published. -/
theorem EndReferenceTracking_eq (m : ManagerOutcomes) (s : State)
    (hstarted : s.s_HasTrackingStarted = true) (hmgr : s.s_TrackerManager ≠ nullptr) :
    EndReferenceTracking m s =
      (m.ReferenceTrackingCompleted,
       { s with
         s_HasTrackingStarted := false, GlobalPeggingState := true,
         trace := s.trace ++ [Event.ReferenceTrackingCompleted s.s_TrackerManager,
           Event.SetGlobalPeggingState true] }) := by
  simp [EndReferenceTracking, ShouldWalkExternalObjects, hstarted, hmgr, SetGlobalPeggingState,
    State.emit]

/-- Otherwise `EndReferenceTracking` does nothing. -/
theorem EndReferenceTracking_skip (m : ManagerOutcomes) (s : State)
    (h : s.s_HasTrackingStarted = false ∨ s.s_TrackerManager = nullptr) :
    EndReferenceTracking m s = (S_FALSE, s) := by
  rcases h with h | h <;> simp [EndReferenceTracking, ShouldWalkExternalObjects, h]

/-- The callback makes no external call other than `FoundReferencePath`. -/
theorem FoundTrackerTarget_events (env : Env) (c : NativeObjectWrapperContext) (t : Ptr) :
    ∀ e ∈ (FoundTrackerTarget env c t State.init).2.trace, e.isWalkCall = true ∧
      e ≠ Event.IteratorNext ∧ ∀ p, e ≠ Event.FindTrackerTargets p := by
  unfold FoundTrackerTarget
  by_cases ht : t ≠ nullptr
  · simp [ht]
  · simp only [ht, if_false]
    cases env.MapFromIUnknown t with
    | none => simp
    | some mow =>
      simp only [RETURN_IF_FAILED]
      split <;> simp [State.emit, Event.isWalkCall]

/-- Inside `FindTrackerTargets` the only external calls are `FoundReferencePath` calls. -/
theorem FindTrackerTargets_events (env : Env) (c : NativeObjectWrapperContext)
    (script : FindTargetsScript) :
    ∀ e ∈ (FindTrackerTargets env c script State.init).2.trace, e.isWalkCall = true ∧
      e ≠ Event.IteratorNext ∧ ∀ p, e ≠ Event.FindTrackerTargets p := by
  induction script with
  | ret hr => simp [FindTrackerTargets]
  | found target next ih =>
    simp only [FindTrackerTargets]
    rw [FindTrackerTargets_eq]
    intro e he
    simp only [State.append_trace, List.mem_append] at he
    rcases he with he | he
    · exact FoundTrackerTarget_events env c target e he
    · exact ih _ e he

/-- No `FindTrackerTargets` call is made from inside a `FindTrackerTargets` call. -/
theorem findCalls_findEvents (env : Env) (c : NativeObjectWrapperContext) :
    findCalls (findEvents env c) = [] := by
  have h := FindTrackerTargets_events env c c.findTargets
  unfold findEvents findCalls
  generalize (FindTrackerTargets env c c.findTargets State.init).2.trace = evs at h
  induction evs with
  | nil => rfl
  | cons e rest ih =>
    have he := h e (List.mem_cons_self e rest)
    have hrest := ih (fun x hx => h x (List.mem_cons_of_mem e hx))
    cases e <;> simp_all [List.filterMap_cons]

/-- No `IteratorNext` call is made from inside a `FindTrackerTargets` call. -/
theorem iteratorCalls_findEvents (env : Env) (c : NativeObjectWrapperContext) :
    iteratorCalls (findEvents env c) = 0 := by
  have h := FindTrackerTargets_events env c c.findTargets
  unfold findEvents iteratorCalls
  rw [List.count_eq_zero]
  intro hmem
  exact (h _ hmem).2.1 rfl

/-- The enumeration loop makes only `IteratorNext`, `FindTrackerTargets` and
`FoundReferencePath` calls. -/
theorem walkEvents_isWalkCall (env : Env) (items : List NativeObjectWrapperContext)
    (endHr : HRESULT) : ∀ e ∈ walkEvents env items endHr, e.isWalkCall = true := by
  induction items with
  | nil => simp [walkEvents_nil, Event.isWalkCall]
  | cons c rest ih =>
    have hfe : ∀ e ∈ findEvents env c, e.isWalkCall = true :=
      fun e he => (FindTrackerTargets_events env c c.findTargets e he).1
    by_cases hc : c.ReferenceTracker = nullptr
    · rw [(walk_cons_skip env c rest endHr hc).2]
      intro e he
      rcases List.mem_cons.mp he with he | he
      · subst he; rfl
      · exact ih e he
    · by_cases hf : FAILED (findStatus env c) = true
      · rw [(walk_cons_fail env c rest endHr hc hf).2]
        intro e he
        rcases List.mem_cons.mp he with he | he
        · subst he; rfl
        · rcases List.mem_cons.mp he with he | he
          · subst he; rfl
          · exact hfe e he
      · have hf2 : FAILED (findStatus env c) = false := by simpa using hf
        rw [(walk_cons_ok env c rest endHr hc hf2).2]
        intro e he
        rcases List.mem_cons.mp he with he | he
        · subst he; rfl
        · rcases List.mem_cons.mp he with he | he
          · subst he; rfl
          · rcases List.mem_append.mp he with he | he
            · exact hfe e he
            · exact ih e he

/-- A list of enumeration calls holds no pegging write, no completion notification and no
host registration. -/
theorem walkCalls_projections (evs : List Event) (h : ∀ e ∈ evs, e.isWalkCall = true) :
    peggingWrites evs = [] ∧ completedCalls evs = [] ∧ setHostCalls evs = [] := by
  induction evs with
  | nil => exact ⟨rfl, rfl, rfl⟩
  | cons e rest ih =>
    have he := h e (List.mem_cons_self e rest)
    have hrest := ih (fun x hx => h x (List.mem_cons_of_mem e hx))
    unfold peggingWrites completedCalls setHostCalls at *
    cases e <;> simp_all [List.filterMap_cons, Event.isWalkCall]

theorem findCalls_append (a b : List Event) :
    findCalls (a ++ b) = findCalls a ++ findCalls b := by
  simp [findCalls, List.filterMap_append]

theorem iteratorCalls_append (a b : List Event) :
    iteratorCalls (a ++ b) = iteratorCalls a + iteratorCalls b := by
  simp [iteratorCalls, List.count_append]

/-- When the loop gets past every context, it ends with the status of the last
`IteratorNext`, having called `FindTrackerTargets` on exactly the trackers, in order. -/
theorem walk_all_pass (env : Env) (items : List NativeObjectWrapperContext) (endHr : HRESULT)
    (hfind : ∀ c ∈ items, c.ReferenceTracker ≠ nullptr → FAILED (findStatus env c) = false) :
    walkStatus env items endHr = endHr ∧
    findCalls (walkEvents env items endHr) = trackersOf items ∧
    iteratorCalls (walkEvents env items endHr) = items.length + 1 := by
  induction items with
  | nil => simp [walkStatus_nil, walkEvents_nil, findCalls, trackersOf, iteratorCalls]
  | cons c rest ih =>
    have ih2 := ih (fun x hx => hfind x (List.mem_cons_of_mem c hx))
    by_cases hc : c.ReferenceTracker = nullptr
    · obtain ⟨h1, h2⟩ := walk_cons_skip env c rest endHr hc
      rw [h1, h2]
      refine ⟨ih2.1, ?_, ?_⟩
      · have : findCalls (Event.IteratorNext :: walkEvents env rest endHr) =
            findCalls (walkEvents env rest endHr) := by simp [findCalls, List.filterMap_cons]
        rw [this, ih2.2.1]
        simp [trackersOf, hc]
      · have : iteratorCalls (Event.IteratorNext :: walkEvents env rest endHr) =
            iteratorCalls (walkEvents env rest endHr) + 1 := by simp [iteratorCalls]
        rw [this, ih2.2.2]
        simp
    · have hf := hfind c (List.mem_cons_self c rest) hc
      obtain ⟨h1, h2⟩ := walk_cons_ok env c rest endHr hc hf
      rw [h1, h2]
      refine ⟨ih2.1, ?_, ?_⟩
      · have : findCalls (Event.IteratorNext :: Event.FindTrackerTargets c.ReferenceTracker ::
            (findEvents env c ++ walkEvents env rest endHr)) =
            c.ReferenceTracker :: (findCalls (findEvents env c) ++
              findCalls (walkEvents env rest endHr)) := by
          rw [← findCalls_append]
          simp [findCalls, List.filterMap_cons]
        rw [this, findCalls_findEvents, ih2.2.1]
        simp [trackersOf, hc]
      · have : iteratorCalls (Event.IteratorNext ::
            Event.FindTrackerTargets c.ReferenceTracker ::
            (findEvents env c ++ walkEvents env rest endHr)) =
            iteratorCalls (findEvents env c) + iteratorCalls (walkEvents env rest endHr) + 1 := by
          rw [← iteratorCalls_append]
          simp [iteratorCalls]
        rw [this, iteratorCalls_findEvents, ih2.2.2]
        simp

/-- When the loop gets past the contexts `pre` and `FindTrackerTargets` fails on the next
context `c`, the loop is left with that failure: nothing after `c` is visited. -/
theorem walk_fail_at (env : Env) (pre post : List NativeObjectWrapperContext)
    (c : NativeObjectWrapperContext) (endHr : HRESULT)
    (hpre : ∀ p ∈ pre, p.ReferenceTracker ≠ nullptr → FAILED (findStatus env p) = false)
    (hc : c.ReferenceTracker ≠ nullptr) (hf : FAILED (findStatus env c) = true) :
    walkStatus env (pre ++ c :: post) endHr = findStatus env c ∧
    findCalls (walkEvents env (pre ++ c :: post) endHr) =
      trackersOf pre ++ [c.ReferenceTracker] ∧
    iteratorCalls (walkEvents env (pre ++ c :: post) endHr) = pre.length + 1 := by
  induction pre with
  | nil =>
    obtain ⟨h1, h2⟩ := walk_cons_fail env c post endHr hc hf
    simp only [List.nil_append]
    rw [h1, h2]
    refine ⟨rfl, ?_, ?_⟩
    · have : findCalls (Event.IteratorNext :: Event.FindTrackerTargets c.ReferenceTracker ::
          findEvents env c) = c.ReferenceTracker :: findCalls (findEvents env c) := by
        simp [findCalls, List.filterMap_cons]
      rw [this, findCalls_findEvents]
      simp [trackersOf]
    · have : iteratorCalls (Event.IteratorNext ::
          Event.FindTrackerTargets c.ReferenceTracker :: findEvents env c) =
          iteratorCalls (findEvents env c) + 1 := by simp [iteratorCalls]
      rw [this, iteratorCalls_findEvents]
      simp
  | cons q rest ih =>
    have ih2 := ih (fun x hx => hpre x (List.mem_cons_of_mem q hx))
    simp only [List.cons_append]
    by_cases hq : q.ReferenceTracker = nullptr
    · obtain ⟨h1, h2⟩ := walk_cons_skip env q (rest ++ c :: post) endHr hq
      rw [h1, h2]
      refine ⟨ih2.1, ?_, ?_⟩
      · have : findCalls (Event.IteratorNext :: walkEvents env (rest ++ c :: post) endHr) =
            findCalls (walkEvents env (rest ++ c :: post) endHr) := by
          simp [findCalls, List.filterMap_cons]
        rw [this, ih2.2.1]
        simp [trackersOf, hq]
      · have : iteratorCalls (Event.IteratorNext ::
            walkEvents env (rest ++ c :: post) endHr) =
            iteratorCalls (walkEvents env (rest ++ c :: post) endHr) + 1 := by
          simp [iteratorCalls]
        rw [this, ih2.2.2]
        simp
    · have hqf := hpre q (List.mem_cons_self q rest) hq
      obtain ⟨h1, h2⟩ := walk_cons_ok env q (rest ++ c :: post) endHr hq hqf
      rw [h1, h2]
      refine ⟨ih2.1, ?_, ?_⟩
      · have : findCalls (Event.IteratorNext :: Event.FindTrackerTargets q.ReferenceTracker ::
            (findEvents env q ++ walkEvents env (rest ++ c :: post) endHr)) =
            q.ReferenceTracker :: (findCalls (findEvents env q) ++
              findCalls (walkEvents env (rest ++ c :: post) endHr)) := by
          rw [← findCalls_append]
          simp [findCalls, List.filterMap_cons]
        rw [this, findCalls_findEvents, ih2.2.1]
        simp [trackersOf, hq]
      · have : iteratorCalls (Event.IteratorNext ::
            Event.FindTrackerTargets q.ReferenceTracker ::
            (findEvents env q ++ walkEvents env (rest ++ c :: post) endHr)) =
            iteratorCalls (findEvents env q) +
              iteratorCalls (walkEvents env (rest ++ c :: post) endHr) + 1 := by
          rw [← iteratorCalls_append]
          simp [iteratorCalls]
        rw [this, iteratorCalls_findEvents, ih2.2.2]
        simp

/-- Frame of `OnIReferenceTrackerFound`: it writes neither flag. -/
theorem OnIReferenceTrackerFound_flags (m : ManagerOutcomes) (obj : IReferenceTracker)
    (s : State) :
    (OnIReferenceTrackerFound m obj s).2.s_HasTrackingStarted = s.s_HasTrackingStarted ∧
    (OnIReferenceTrackerFound m obj s).2.GlobalPeggingState = s.GlobalPeggingState := by
  unfold OnIReferenceTrackerFound
  simp only [InterlockedCompareExchangePointer, RETURN_IF_FAILED, ComHolder_dtor, State.emit]
  repeat' split
  all_goals exact ⟨rfl, rfl⟩

/-- Frame of `OnShutdown`: it writes neither flag. -/
theorem OnShutdown_flags (s : State) :
    (OnShutdown s).s_HasTrackingStarted = s.s_HasTrackingStarted ∧
    (OnShutdown s).GlobalPeggingState = s.GlobalPeggingState := by
  simp [OnShutdown, InterlockedCompareExchangePointer, State.emit]

/-- At rest the pegging flag is true: an invariant of every operation. -/
theorem step_rest_pegged (env : Env) (op : Op) (s : State)
    (h : s.s_HasTrackingStarted = false → s.GlobalPeggingState = true) :
    (step env op s).s_HasTrackingStarted = false →
      (step env op s).GlobalPeggingState = true := by
  cases op with
  | OnIReferenceTrackerFound m obj =>
    simp only [step]
    rw [(OnIReferenceTrackerFound_flags m obj s).1, (OnIReferenceTrackerFound_flags m obj s).2]
    exact h
  | BeginReferenceTracking m cxt =>
    simp only [step]
    by_cases hmgr : s.s_TrackerManager = nullptr
    · rw [BeginReferenceTracking_null env m cxt s hmgr]
      exact h
    · intro hst
      rw [BeginReferenceTracking_started env m cxt s hmgr] at hst
      exact absurd hst (by decide)
  | EndReferenceTracking m =>
    simp only [step]
    by_cases hskip : s.s_HasTrackingStarted = false ∨ s.s_TrackerManager = nullptr
    · rw [EndReferenceTracking_skip m s hskip]
      exact h
    · have h1 : s.s_HasTrackingStarted = true := by
        cases hs : s.s_HasTrackingStarted
        · exact absurd (Or.inl hs) hskip
        · rfl
      have h2 : s.s_TrackerManager ≠ nullptr := fun hn => hskip (Or.inr hn)
      rw [EndReferenceTracking_eq m s h1 h2]
      intro _
      rfl
  | OnShutdown =>
    simp only [step]
    rw [(OnShutdown_flags s).1, (OnShutdown_flags s).2]
    exact h

/-- The same invariant along a sequence of operations. -/
theorem run_rest_pegged (env : Env) (ops : List Op) (s : State)
    (h : s.s_HasTrackingStarted = false → s.GlobalPeggingState = true) :
    (run env ops s).s_HasTrackingStarted = false →
      (run env ops s).GlobalPeggingState = true := by
  induction ops generalizing s with
  | nil => exact h
  | cons op rest ih =>
    simp only [run, List.foldl_cons]
    exact ih (step env op s) (step_rest_pegged env op s h)

/-- Every non-null target is turned away by the callback before it is looked up. -/
theorem FoundTrackerTarget_nonnull (env : Env) (c : NativeObjectWrapperContext) (t : Ptr)
    (s : State) (ht : t ≠ nullptr) : FoundTrackerTarget env c t s = (E_POINTER, s) := by
  simp [FoundTrackerTarget, ht]

/-- Whatever pointer `OnShutdown` reads, null included, it clears the static and calls
`Release` through that pointer. -/
theorem OnShutdown_eq (s : State) :
    OnShutdown s =
      { s with
        s_TrackerManager := nullptr,
        trace := s.trace ++ [Event.Release s.s_TrackerManager] } := by
  simp [OnShutdown, InterlockedCompareExchangePointer, State.emit]

/-- C1: from any state with the pegging flag true and no walk active, with or without a
published manager and whatever the start notification, the enumeration, every
`FindTrackerTargets` call and the completion notification return, after
`BeginReferenceTracking` followed at once by `EndReferenceTracking` the pegging flag is
true and `s_HasTrackingStarted` is false. -/
theorem C1_bracket_restores_flags (env : Env) (mBegin mEnd : ManagerOutcomes)
    (cxt : RuntimeCallContext) (s : State)
    (hpeg : s.GlobalPeggingState = true) (hidle : s.s_HasTrackingStarted = false) :
    (EndReferenceTracking mEnd
        (BeginReferenceTracking env mBegin cxt s).2).2.GlobalPeggingState = true ∧
    (EndReferenceTracking mEnd
        (BeginReferenceTracking env mBegin cxt s).2).2.s_HasTrackingStarted = false := by
  by_cases hmgr : s.s_TrackerManager = nullptr
  · rw [BeginReferenceTracking_null env mBegin cxt s hmgr,
      EndReferenceTracking_skip mEnd s (Or.inl hidle)]
    exact ⟨hpeg, hidle⟩
  · have h1 := BeginReferenceTracking_started env mBegin cxt s hmgr
    have h2 : (BeginReferenceTracking env mBegin cxt s).2.s_TrackerManager ≠ nullptr := by
      rw [BeginReferenceTracking_mgr]; exact hmgr
    rw [EndReferenceTracking_eq mEnd _ h1 h2]
    exact ⟨rfl, rfl⟩

/-- C1 at a concrete bracket: manager published, the second context fails. -/
theorem C1_bracket_restores_flags_witness :
    publishedState.GlobalPeggingState = true ∧ publishedState.s_HasTrackingStarted = false ∧
    (EndReferenceTracking okManager
        (BeginReferenceTracking sampleEnv okManager failingPass
          publishedState).2).2.GlobalPeggingState = true ∧
    (EndReferenceTracking okManager
        (BeginReferenceTracking sampleEnv okManager failingPass
          publishedState).2).2.s_HasTrackingStarted = false :=
  ⟨rfl, rfl,
    C1_bracket_restores_flags sampleEnv okManager okManager failingPass publishedState rfl rfl⟩

/-- C4: when no manager is published, `BeginReferenceTracking` returns `S_FALSE` and the
state it returns is the state it was given: pegging flag and active-walk flag unchanged and
nothing added to the trace, so no start notification, no `IteratorNext`, no
`FindTrackerTargets`, no completion notification and no edge report was made. -/
theorem C4_begin_without_manager (env : Env) (m : ManagerOutcomes) (cxt : RuntimeCallContext)
    (s : State) (hnull : s.s_TrackerManager = nullptr) :
    (BeginReferenceTracking env m cxt s).1 = S_FALSE ∧
    (BeginReferenceTracking env m cxt s).2 = s := by
  rw [BeginReferenceTracking_null env m cxt s hnull]
  exact ⟨rfl, rfl⟩

/-- C4 at the initial state. -/
theorem C4_begin_without_manager_witness :
    State.init.s_TrackerManager = nullptr ∧
    (BeginReferenceTracking sampleEnv okManager reportingPass State.init).1 = S_FALSE ∧
    (BeginReferenceTracking sampleEnv okManager reportingPass State.init).2 = State.init :=
  ⟨rfl, C4_begin_without_manager sampleEnv okManager reportingPass State.init rfl⟩

/-- C9: with a manager published and a successful start notification, if the final
`IteratorNext` status and every `FindTrackerTargets` status are not failures, then
`BeginReferenceTracking` returns `S_OK`; between the start notification and the single
`FindTrackerTargetsCompleted(FALSE)` call, `FindTrackerTargets` is called on exactly the
non-null trackers in enumeration order, `IteratorNext` once per context plus once, and the
pegging flag is not written, so it is still false on return. -/
theorem C9_successful_walk (env : Env) (m : ManagerOutcomes) (cxt : RuntimeCallContext)
    (s : State) (hmgr : s.s_TrackerManager ≠ nullptr)
    (hstart : FAILED m.ReferenceTrackingStarted = false)
    (hiter : FAILED cxt.endHr = false)
    (hfind : ∀ c ∈ cxt.items, c.ReferenceTracker ≠ nullptr →
      FAILED (findStatus env c) = false) :
    ∃ walk : List Event,
      BeginReferenceTracking env m cxt s =
        (S_OK,
         { s with
           s_HasTrackingStarted := true, GlobalPeggingState := false,
           trace := s.trace ++ [Event.SetGlobalPeggingState false,
             Event.ReferenceTrackingStarted s.s_TrackerManager] ++ walk ++
             [Event.FindTrackerTargetsCompleted s.s_TrackerManager false] }) ∧
      findCalls walk = trackersOf cxt.items ∧
      iteratorCalls walk = cxt.items.length + 1 ∧
      peggingWrites walk = [] ∧
      completedCalls walk = [] := by
  obtain ⟨h1, h2, h3⟩ := walk_all_pass env cxt.items cxt.endHr hfind
  obtain ⟨h4, h5, _⟩ :=
    walkCalls_projections _ (walkEvents_isWalkCall env cxt.items cxt.endHr)
  refine ⟨walkEvents env cxt.items cxt.endHr, ?_, h2, h3, h4, h5⟩
  rw [BeginReferenceTracking_eq env m cxt s hmgr]
  simp [hstart, h1, hiter]

/-- C9 on three contexts of which only the second has a tracker. -/
theorem C9_successful_walk_witness :
    publishedState.s_TrackerManager ≠ nullptr ∧
    FAILED okManager.ReferenceTrackingStarted = false ∧
    FAILED quietPass.endHr = false ∧
    (BeginReferenceTracking sampleEnv okManager quietPass publishedState).1 = S_OK ∧
    (BeginReferenceTracking sampleEnv okManager quietPass
      publishedState).2.GlobalPeggingState = false ∧
    findCalls (BeginReferenceTracking sampleEnv okManager quietPass publishedState).2.trace
      = [22] := by
  obtain ⟨walk, h, hcalls, _⟩ := C9_successful_walk sampleEnv okManager quietPass
    publishedState (by decide) (by decide) (by decide) (by decide)
  refine ⟨by decide, by decide, by decide, ?_, ?_, ?_⟩
  · rw [h]
  · rw [h]
  · rw [h]
    simp only [findCalls_append, hcalls]
    decide

/-- C2: with a manager published and a successful start notification. (1) If the loop got
past every context and `IteratorNext` then fails, or (2) if the loop got past the contexts
`pre` and `FindTrackerTargets` fails on the next context `c`, then `BeginReferenceTracking`
returns that failure; `FindTrackerTargets` was called on the trackers up to the failure and
on none of the contexts `post` after it, `IteratorNext` was not called again; the last two
calls are `SetGlobalPeggingState(true)` and then `FindTrackerTargetsCompleted(TRUE)`, the
only completion call of the walk. -/
theorem C2_walk_failure (env : Env) (m : ManagerOutcomes) (s : State)
    (hmgr : s.s_TrackerManager ≠ nullptr)
    (hstart : FAILED m.ReferenceTrackingStarted = false) :
    (∀ cxt : RuntimeCallContext,
      (∀ c ∈ cxt.items, c.ReferenceTracker ≠ nullptr → FAILED (findStatus env c) = false) →
      FAILED cxt.endHr = true →
      ∃ walk : List Event,
        BeginReferenceTracking env m cxt s =
          (cxt.endHr,
           { s with
             s_HasTrackingStarted := true, GlobalPeggingState := true,
             trace := s.trace ++ [Event.SetGlobalPeggingState false,
               Event.ReferenceTrackingStarted s.s_TrackerManager] ++ walk ++
               [Event.SetGlobalPeggingState true,
                Event.FindTrackerTargetsCompleted s.s_TrackerManager true] }) ∧
        findCalls walk = trackersOf cxt.items ∧
        iteratorCalls walk = cxt.items.length + 1 ∧
        peggingWrites walk = [] ∧ completedCalls walk = []) ∧
    (∀ (cxt : RuntimeCallContext) (pre post : List NativeObjectWrapperContext)
      (c : NativeObjectWrapperContext),
      cxt.items = pre ++ c :: post →
      (∀ p ∈ pre, p.ReferenceTracker ≠ nullptr → FAILED (findStatus env p) = false) →
      c.ReferenceTracker ≠ nullptr →
      FAILED (findStatus env c) = true →
      ∃ walk : List Event,
        BeginReferenceTracking env m cxt s =
          (findStatus env c,
           { s with
             s_HasTrackingStarted := true, GlobalPeggingState := true,
             trace := s.trace ++ [Event.SetGlobalPeggingState false,
               Event.ReferenceTrackingStarted s.s_TrackerManager] ++ walk ++
               [Event.SetGlobalPeggingState true,
                Event.FindTrackerTargetsCompleted s.s_TrackerManager true] }) ∧
        findCalls walk = trackersOf pre ++ [c.ReferenceTracker] ∧
        iteratorCalls walk = pre.length + 1 ∧
        peggingWrites walk = [] ∧ completedCalls walk = []) := by
  constructor
  · intro cxt hfind hiter
    obtain ⟨h1, h2, h3⟩ := walk_all_pass env cxt.items cxt.endHr hfind
    obtain ⟨h4, h5, _⟩ :=
      walkCalls_projections _ (walkEvents_isWalkCall env cxt.items cxt.endHr)
    refine ⟨walkEvents env cxt.items cxt.endHr, ?_, h2, h3, h4, h5⟩
    rw [BeginReferenceTracking_eq env m cxt s hmgr]
    simp [hstart, h1, hiter]
  · intro cxt pre post c hitems hpre hc hf
    obtain ⟨h1, h2, h3⟩ := walk_fail_at env pre post c cxt.endHr hpre hc hf
    obtain ⟨h4, h5, _⟩ :=
      walkCalls_projections _ (walkEvents_isWalkCall env cxt.items cxt.endHr)
    rw [← hitems] at h1 h2 h3
    refine ⟨walkEvents env cxt.items cxt.endHr, ?_, h2, h3, h4, h5⟩
    rw [BeginReferenceTracking_eq env m cxt s hmgr]
    simp [hstart, h1, hf]

/-- C2 on a pass whose `IteratorNext` fails after one context, and on a pass whose second
context fails. -/
theorem C2_walk_failure_witness :
    publishedState.s_TrackerManager ≠ nullptr ∧
    FAILED okManager.ReferenceTrackingStarted = false ∧
    (BeginReferenceTracking sampleEnv okManager brokenPass publishedState).1 = E_POINTER ∧
    (BeginReferenceTracking sampleEnv okManager failingPass publishedState).1 = E_POINTER ∧
    (BeginReferenceTracking sampleEnv okManager failingPass
      publishedState).2.GlobalPeggingState = true ∧
    findCalls (BeginReferenceTracking sampleEnv okManager failingPass publishedState).2.trace
      = [22, 23] := by
  have h := C2_walk_failure sampleEnv okManager publishedState (by decide) (by decide)
  obtain ⟨walk1, hw1, _⟩ := h.1 brokenPass (by decide) (by decide)
  obtain ⟨walk2, hw2, hcalls, _⟩ := h.2 failingPass [quietContext] [quietContext]
    failingContext rfl (by decide) (by decide) (by decide)
  refine ⟨by decide, by decide, ?_, ?_, ?_, ?_⟩
  · rw [hw1]; rfl
  · rw [hw2]; rfl
  · rw [hw2]
  · rw [hw2]
    simp only [findCalls_append, hcalls]
    decide

/-- C7: (1) when a manager is already published, `OnIReferenceTrackerFound` returns `S_OK`
and returns the state it was given, so it called neither `GetReferenceTrackerManager` nor
`SetReferenceTrackerHost` and left `s_TrackerManager` alone; (2) when none is published and
both `GetReferenceTrackerManager` and `SetReferenceTrackerHost` succeed, it returns `S_OK`,
publishes the pointer obtained from `obj`, and its only calls are
`GetReferenceTrackerManager` on `obj` and then one `SetReferenceTrackerHost` on that
pointer. -/
theorem C7_found_publishes_once (m : ManagerOutcomes) (obj : IReferenceTracker) (s : State) :
    (s.s_TrackerManager ≠ nullptr → OnIReferenceTrackerFound m obj s = (S_OK, s)) ∧
    (s.s_TrackerManager = nullptr →
      FAILED obj.GetReferenceTrackerManager.1 = false →
      FAILED m.SetReferenceTrackerHost = false →
      OnIReferenceTrackerFound m obj s =
        (S_OK,
         { s with
           s_TrackerManager := obj.GetReferenceTrackerManager.2,
           trace := s.trace ++ [Event.GetReferenceTrackerManager obj.self,
             Event.SetReferenceTrackerHost obj.GetReferenceTrackerManager.2] })) := by
  constructor
  · intro h
    simp [OnIReferenceTrackerFound, h]
  · intro h hget hset
    have hq : FAILED (HostServices_QueryInterface IID.IReferenceTrackerHost addressOfLocal)
        = false := by decide
    simp [OnIReferenceTrackerFound, h, hget, hq, hset, InterlockedCompareExchangePointer,
      RETURN_IF_FAILED, State.emit]

/-- C7 at the published state (no-op) and at the initial state (first publication). -/
theorem C7_found_publishes_once_witness :
    OnIReferenceTrackerFound okManager sampleTracker publishedState = (S_OK, publishedState) ∧
    OnIReferenceTrackerFound okManager sampleTracker State.init =
      (S_OK,
       { State.init with
         s_TrackerManager := 9,
         trace := [Event.GetReferenceTrackerManager 7, Event.SetReferenceTrackerHost 9] }) :=
  ⟨(C7_found_publishes_once okManager sampleTracker publishedState).1 (by decide),
   (C7_found_publishes_once okManager sampleTracker State.init).2 rfl (by decide)
     (by decide)⟩

/-- C8: `AfterWrapperCreated` first calls `ConnectFromTrackerSource`, once. If that fails
it returns the failure and makes no other call. Otherwise it then calls
`AddRefFromTrackerSource`, once, and makes no other call; the result is `S_OK` exactly when
that second call does not fail, and is its failure code when it does. -/
theorem C8_connect_before_addref (obj : IReferenceTracker) (s : State) :
    (FAILED obj.ConnectFromTrackerSource = true →
      AfterWrapperCreated obj s =
        (obj.ConnectFromTrackerSource,
         { s with trace := s.trace ++ [Event.ConnectFromTrackerSource obj.self] })) ∧
    (FAILED obj.ConnectFromTrackerSource = false →
      (AfterWrapperCreated obj s).2 =
        { s with trace := s.trace ++ [Event.ConnectFromTrackerSource obj.self,
            Event.AddRefFromTrackerSource obj.self] } ∧
      ((AfterWrapperCreated obj s).1 = S_OK ↔ FAILED obj.AddRefFromTrackerSource = false) ∧
      (FAILED obj.AddRefFromTrackerSource = true →
        (AfterWrapperCreated obj s).1 = obj.AddRefFromTrackerSource)) := by
  constructor
  · intro h
    simp [AfterWrapperCreated, RETURN_IF_FAILED, h, State.emit]
  · intro h
    by_cases h2 : FAILED obj.AddRefFromTrackerSource = true
    · have hne : obj.AddRefFromTrackerSource ≠ S_OK := by
        intro h0
        rw [h0] at h2
        exact absurd h2 (by decide)
      simp [AfterWrapperCreated, RETURN_IF_FAILED, h, h2, State.emit, hne]
    · simp [AfterWrapperCreated, RETURN_IF_FAILED, h, h2, State.emit]

/-- C8 on a tracker whose two calls succeed and on one whose connect call fails. -/
theorem C8_connect_before_addref_witness :
    (AfterWrapperCreated sampleTracker State.init).2 =
      { State.init with trace := [Event.ConnectFromTrackerSource 7,
          Event.AddRefFromTrackerSource 7] } ∧
    (AfterWrapperCreated sampleTracker State.init).1 = S_OK ∧
    AfterWrapperCreated refusingTracker State.init =
      (E_POINTER, { State.init with trace := [Event.ConnectFromTrackerSource 8] }) :=
  ⟨((C8_connect_before_addref sampleTracker State.init).2 (by decide)).1,
   ((C8_connect_before_addref sampleTracker State.init).2 (by decide)).2.1.mpr (by decide),
   (C8_connect_before_addref refusingTracker State.init).1 (by decide)⟩

/-- C5 (amended): after any finite sequence of `OnIReferenceTrackerFound`,
`BeginReferenceTracking`, `EndReferenceTracking` and `OnShutdown` from the initial state,
with any outcomes of the external calls: a call of `EndReferenceTracking` made while no walk
is active or while a manager is published returns with the pegging flag true and
`s_HasTrackingStarted` false; a call made while a walk is active and no manager is
published returns `S_FALSE` and changes nothing. -/
theorem C5_end_after_any_history (env : Env) (ops : List Op) (m : ManagerOutcomes) :
    (((run env ops State.init).s_HasTrackingStarted = false ∨
        (run env ops State.init).s_TrackerManager ≠ nullptr) →
      (EndReferenceTracking m (run env ops State.init)).2.GlobalPeggingState = true ∧
      (EndReferenceTracking m (run env ops State.init)).2.s_HasTrackingStarted = false) ∧
    (((run env ops State.init).s_HasTrackingStarted = true ∧
        (run env ops State.init).s_TrackerManager = nullptr) →
      EndReferenceTracking m (run env ops State.init) = (S_FALSE, run env ops State.init)) := by
  have hinv := run_rest_pegged env ops State.init (fun _ => rfl)
  constructor
  · intro h
    by_cases hst : (run env ops State.init).s_HasTrackingStarted = false
    · rw [EndReferenceTracking_skip m _ (Or.inl hst)]
      exact ⟨hinv hst, hst⟩
    · have hst2 : (run env ops State.init).s_HasTrackingStarted = true := by simpa using hst
      have hmgr : (run env ops State.init).s_TrackerManager ≠ nullptr := by
        rcases h with h | h
        · exact absurd h hst
        · exact h
      rw [EndReferenceTracking_eq m _ hst2 hmgr]
      exact ⟨rfl, rfl⟩
  · intro h
    exact EndReferenceTracking_skip m _ (Or.inr h.2)

/-- C5 (amended) after a discovery and a begin whose walk fails. -/
theorem C5_end_after_any_history_witness :
    (EndReferenceTracking okManager
      (run sampleEnv [Op.OnIReferenceTrackerFound okManager sampleTracker,
        Op.BeginReferenceTracking okManager failingPass] State.init)).2.GlobalPeggingState
      = true ∧
    (EndReferenceTracking okManager
      (run sampleEnv [Op.OnIReferenceTrackerFound okManager sampleTracker,
        Op.BeginReferenceTracking okManager failingPass] State.init)).2.s_HasTrackingStarted
      = false :=
  (C5_end_after_any_history sampleEnv [Op.OnIReferenceTrackerFound okManager sampleTracker,
    Op.BeginReferenceTracking okManager failingPass] okManager).1 (Or.inr (by decide))

/-- C5 as stated fails: discovery, a successful begin, then `OnShutdown` inside the bracket;
the `EndReferenceTracking` that follows returns `S_FALSE` with the pegging flag still false
and `s_HasTrackingStarted` still true. -/
theorem C5_end_after_shutdown_counterexample :
    (EndReferenceTracking okManager
      (run sampleEnv [Op.OnIReferenceTrackerFound okManager sampleTracker,
        Op.BeginReferenceTracking okManager quietPass, Op.OnShutdown] State.init)).1
      = S_FALSE ∧
    (EndReferenceTracking okManager
      (run sampleEnv [Op.OnIReferenceTrackerFound okManager sampleTracker,
        Op.BeginReferenceTracking okManager quietPass, Op.OnShutdown]
        State.init)).2.GlobalPeggingState = false ∧
    (EndReferenceTracking okManager
      (run sampleEnv [Op.OnIReferenceTrackerFound okManager sampleTracker,
        Op.BeginReferenceTracking okManager quietPass, Op.OnShutdown]
        State.init)).2.s_HasTrackingStarted = true := by
  decide

/-- C3 at a failing input: the non-null target 40 is a wrapper this runtime created
(`MapFromIUnknown` finds it), yet `FoundTrackerTarget` returns `E_POINTER` and reports no
edge; a walk over three contexts whose second reports that one target yields no edge at
all. -/
theorem C3_nonnull_target_rejected :
    sampleEnv.MapFromIUnknown 40 = some { Target := 400 } ∧
    FoundTrackerTarget sampleEnv reportingContext 40 publishedState =
      (E_POINTER, publishedState) ∧
    reportedEdges
      (BeginReferenceTracking sampleEnv okManager reportingPass publishedState).2.trace = [] := by
  decide

/-- C6 at a failing input: `OnShutdown` with no manager published calls `Release` through
the null pointer; two `OnShutdown` calls after a publication make two `Release` calls, the
second through the null pointer. -/
theorem C6_shutdown_releases_null :
    OnShutdown State.init = { State.init with trace := [Event.Release nullptr] } ∧
    (OnShutdown (OnShutdown publishedState)).trace = [Event.Release 9, Event.Release nullptr] ∧
    (OnShutdown (OnShutdown publishedState)).s_TrackerManager = nullptr := by
  decide

end TrackerObjectManager
